import Mathlib

/-!
Verification of the ruma event-content codec slice: the `m.room.create`
redaction engine, the `MessageType` polymorphic decoder, the stable/unstable
field-alias resolver for file and image message content, and the
room-id-or-alias identifier validator.

Each definition is a shallow embedding of the corresponding Rust item;
types that live outside the shown fragment (ruma-common identifier types,
content payload shapes) are either modelled from the spec (marked as such in
their doc comment) or kept as type parameters so that nothing is assumed
about them.
-/

/-! ## Identifier atoms

Owned identifier strings from ruma-common, used opaquely by the embedded
code. Modelled as plain strings. -/

/-- Modelled from the spec: an owned Matrix user identifier string. -/
abbrev OwnedUserId := String

/-- Modelled from the spec: an owned Matrix room identifier string. -/
abbrev OwnedRoomId := String

/-- Modelled from the spec: an owned Matrix event identifier string. -/
abbrev OwnedEventId := String

/-- Modelled from the spec: the room protocol version, an ordered enumeration
of versions 1 through 11 "and beyond"; versions beyond the known ones are
carried as a custom identifier string.  The source type is
`ruma_common::RoomVersionId`, which is outside the shown fragment. -/
inductive RoomVersionId where
  | V1
  | V2
  | V3
  | V4
  | V5
  | V6
  | V7
  | V8
  | V9
  | V10
  | V11
  | VCustom (id : String)
deriving DecidableEq, Repr

/-- Modelled from the spec: the room type from `ruma_common::room::RoomType`
(outside the shown fragment), "currently only used for spaces", with a
custom fallback variant. -/
inductive RoomType where
  | Space
  | Custom (s : String)
deriving DecidableEq, Repr

/-! ## `m.room.create` content (src/crates/ruma-events/src/room/create.rs)

The `unstable-msc3917` fields are behind a disabled cargo feature (the
default build, whose tests construct the struct with exactly the five fields
below) and are therefore not part of the embedding. -/

/-- A reference to an old room replaced during a room version upgrade
(`PreviousRoom`). -/
structure PreviousRoom where
  room_id : OwnedRoomId
  event_id : OwnedEventId
deriving DecidableEq, Repr

/-- The content of an `m.room.create` event (`RoomCreateEventContent`). -/
structure RoomCreateEventContent where
  creator : Option OwnedUserId
  federate : Bool
  room_version : RoomVersionId
  predecessor : Option PreviousRoom
  room_type : Option RoomType
deriving DecidableEq, Repr

/-- `PreviousRoom::new`. -/
def PreviousRoom.new (room_id : OwnedRoomId) (event_id : OwnedEventId) :
    PreviousRoom :=
  { room_id := room_id, event_id := event_id }

/-- `default_room_version_id`: used to default the `room_version` field to
room version 1. -/
def default_room_version_id : RoomVersionId := RoomVersionId.V1

/-- `RoomCreateEventContent::new_v1`: content with the given creator, as
required for room versions 1 through 10. -/
def RoomCreateEventContent.new_v1 (creator : OwnedUserId) :
    RoomCreateEventContent :=
  { creator := some creator
    federate := true
    room_version := default_room_version_id
    predecessor := none
    room_type := none }

/-- `RoomCreateEventContent::new_v11`: content with the default values and no
creator, as introduced in room version 11. -/
def RoomCreateEventContent.new_v11 : RoomCreateEventContent :=
  { creator := none
    federate := true
    room_version := RoomVersionId.V11
    predecessor := none
    room_type := none }

/-- Redacted form of `RoomCreateEventContent`.  The source declares
`pub type RedactedRoomCreateEventContent = RoomCreateEventContent;`, a
transparent type alias. -/
abbrev RedactedRoomCreateEventContent := RoomCreateEventContent

/-- `RedactContent::redact` for `RoomCreateEventContent`: versions 1 through
10 rebuild the version-11 default shape, resetting `room_version` to the
default and carrying over `creator`; every other version returns the content
unchanged. -/
def RoomCreateEventContent.redact (self : RoomCreateEventContent)
    (version : RoomVersionId) : RedactedRoomCreateEventContent :=
  match version with
  | .V1 | .V2 | .V3 | .V4 | .V5 | .V6 | .V7 | .V8 | .V9 | .V10 =>
      { RoomCreateEventContent.new_v11 with
          room_version := default_room_version_id
          creator := self.creator }
  | _ => self

/-- Mirrors the redaction match scrutinee: `true` exactly on the explicitly
special-cased room versions 1 through 10. -/
def RoomVersionId.isLegacy : RoomVersionId → Bool
  | .V1 | .V2 | .V3 | .V4 | .V5 | .V6 | .V7 | .V8 | .V9 | .V10 => true
  | _ => false

/-! ## Redaction theorems for `m.room.create` -/

/-- C1 (counterexample): redacting a room-create content built for the
pre-11 regime (creator set) against version 11 does NOT drop the `creator`
field and does NOT yield the version-11 default shape: the version-11 arm of
`redact` returns the content unchanged. -/
theorem redact_v11_keeps_creator :
    (RoomCreateEventContent.redact
        (RoomCreateEventContent.new_v1 "@carl:example.com")
        RoomVersionId.V11).creator ≠ none ∧
    RoomCreateEventContent.redact
        (RoomCreateEventContent.new_v1 "@carl:example.com")
        RoomVersionId.V11 ≠ RoomCreateEventContent.new_v11 := by
  decide

/-- C1 (amended): for content whose `creator` field is set, redaction
against version 11 returns the content unchanged, retaining `creator`; it is
redaction against versions 1 through 10 that rebuilds the version-11 default
shape (with `room_version` reset to the version-1 default). -/
theorem redact_v11_identity_retains_creator (c : RoomCreateEventContent)
    (u : OwnedUserId) (h : c.creator = some u) :
    RoomCreateEventContent.redact c RoomVersionId.V11 = c ∧
    (RoomCreateEventContent.redact c RoomVersionId.V11).creator = some u :=
  ⟨rfl, h⟩

/-- C1 witness: the amended statement evaluated at a concrete content. -/
theorem redact_v11_identity_retains_creator_witness :
    RoomCreateEventContent.redact (RoomCreateEventContent.new_v1 "@carl:example.com")
        RoomVersionId.V11 = RoomCreateEventContent.new_v1 "@carl:example.com" ∧
    (RoomCreateEventContent.redact (RoomCreateEventContent.new_v1 "@carl:example.com")
        RoomVersionId.V11).creator = some "@carl:example.com" :=
  redact_v11_identity_retains_creator
    (RoomCreateEventContent.new_v1 "@carl:example.com") "@carl:example.com" rfl

/-- C2 (counterexample): the redacted form of room-create content is NOT a
distinct type from the unredacted form; the source declares it as a
transparent type alias, so the two types are equal. -/
theorem redacted_create_type_eq :
    RedactedRoomCreateEventContent = RoomCreateEventContent := rfl

/-- C2 (amended): the redacted form of room-create content is a type alias
of the unredacted form; the two names denote the same type, and any value
produced by `redact` is itself held at the unredacted type. -/
theorem redacted_create_is_alias :
    RedactedRoomCreateEventContent = RoomCreateEventContent ∧
    ∀ (c : RoomCreateEventContent) (v : RoomVersionId),
      (RoomCreateEventContent.redact c v : RoomCreateEventContent) =
        RoomCreateEventContent.redact c v :=
  ⟨rfl, fun _ _ => rfl⟩

/-- C3: `redact` is total (always returns a result), and on every version
that is not one of the explicitly special-cased versions 1 through 10 it
behaves exactly as the most recent regime, the version-11 one. -/
theorem redact_total_fallback_v11 (c : RoomCreateEventContent)
    (v : RoomVersionId) (h : v.isLegacy = false) :
    (∃ r, RoomCreateEventContent.redact c v = r) ∧
    RoomCreateEventContent.redact c v =
      RoomCreateEventContent.redact c RoomVersionId.V11 := by
  refine ⟨⟨_, rfl⟩, ?_⟩
  cases v <;> simp_all [RoomVersionId.isLegacy, RoomCreateEventContent.redact]

/-- C3 witness: the fallback evaluated at a custom (beyond-11) version. -/
theorem redact_total_fallback_v11_witness :
    (∃ r, RoomCreateEventContent.redact
        (RoomCreateEventContent.new_v1 "@carl:example.com")
        (RoomVersionId.VCustom "org.example.v12") = r) ∧
    RoomCreateEventContent.redact
        (RoomCreateEventContent.new_v1 "@carl:example.com")
        (RoomVersionId.VCustom "org.example.v12") =
      RoomCreateEventContent.redact
        (RoomCreateEventContent.new_v1 "@carl:example.com") RoomVersionId.V11 :=
  redact_total_fallback_v11
    (RoomCreateEventContent.new_v1 "@carl:example.com")
    (RoomVersionId.VCustom "org.example.v12") rfl

/-- C4: redaction is idempotent: redacting an already-redacted room-create
content with the same version yields the same result. -/
theorem redact_idempotent (c : RoomCreateEventContent) (v : RoomVersionId) :
    RoomCreateEventContent.redact (RoomCreateEventContent.redact c v) v =
      RoomCreateEventContent.redact c v := by
  cases v <;> rfl

/-- C9: for versions 1 through 10, redaction carries over only the `creator`
field; every other field of the result is a fixed default independent of the
input: `room_version` is reset to V1, `federate` to `true`, `predecessor`
and `room_type` to absent. -/
theorem redact_legacy_frame (c : RoomCreateEventContent) (v : RoomVersionId)
    (h : v.isLegacy = true) :
    RoomCreateEventContent.redact c v =
      { creator := c.creator
        federate := true
        room_version := RoomVersionId.V1
        predecessor := none
        room_type := none } := by
  cases v <;>
    simp_all [RoomVersionId.isLegacy, RoomCreateEventContent.redact,
      RoomCreateEventContent.new_v11, default_room_version_id]

/-- C9 witness: the frame condition evaluated at a content with every field
set away from its default, at version 4. -/
theorem redact_legacy_frame_witness :
    RoomCreateEventContent.redact
      { creator := some "@u:example.org"
        federate := false
        room_version := RoomVersionId.V9
        predecessor := some (PreviousRoom.new "!old:example.org" "$tail:example.org")
        room_type := some RoomType.Space }
      RoomVersionId.V4 =
      { creator := some "@u:example.org"
        federate := true
        room_version := RoomVersionId.V1
        predecessor := none
        room_type := none } :=
  redact_legacy_frame
    { creator := some "@u:example.org"
      federate := false
      room_version := RoomVersionId.V9
      predecessor := some (PreviousRoom.new "!old:example.org" "$tail:example.org")
      room_type := some RoomType.Space }
    RoomVersionId.V4 rfl

/-! ## Identifier grammar validation
(src/crates/ruma-identifiers-validation/src/room_id.rs,
 src/crates/ruma-identifiers-validation/src/room_id_or_alias_id.rs)

Identifier candidates are modelled as lists of characters; the leading-byte
check of the source corresponds to the leading-character check here.  The
shared grammar checks and the room-alias validator live in parts of the
crate outside the shown fragment and are modelled from the spec. -/

/-- Mirrors `Result::is_ok`. -/
def Except.is_ok : Except ε α → Bool
  | .ok _ => true
  | .error _ => false

@[simp] theorem is_ok_ok (a : α) : (Except.ok a : Except ε α).is_ok = true := rfl

@[simp] theorem is_ok_error (e : ε) : (Except.error e : Except ε α).is_ok = false := rfl

/-- Modelled from the spec: the identifier-grammar error taxonomy ("bad
sigil, bad length, forbidden characters" plus a missing server-name
delimiter); `MissingLeadingSigil` is the variant the shown fragment
constructs directly. -/
inductive Error where
  | MissingLeadingSigil
  | MissingDelimiter
  | MaximumLengthExceeded
deriving DecidableEq, Repr

/-- Modelled from the spec: identifiers have a maximum length. -/
def MAX_BYTES : Nat := 255

/-- Modelled from the spec: the shared non-delimited grammar check — a
length bound and a leading sigil character. -/
def validate_id (id : List Char) (sigil : Char) : Except Error Unit :=
  if MAX_BYTES < id.length then Except.error Error.MaximumLengthExceeded
  else if id.head? = some sigil then Except.ok ()
  else Except.error Error.MissingLeadingSigil

/-- Modelled from the spec: the shared delimited grammar check — the
non-delimited check plus a required server-name delimiter. -/
def validate_delimited_id (id : List Char) (sigil : Char) : Except Error Unit :=
  match validate_id id sigil with
  | Except.error e => Except.error e
  | Except.ok _ =>
      if id.contains ':' then Except.ok ()
      else Except.error Error.MissingDelimiter

namespace room_id

/-- `room_id::validate` (default feature set): the non-delimited check with
the room sigil. -/
def validate (s : List Char) : Except Error Unit :=
  validate_id s '!'

end room_id

namespace room_alias_id

/-- Modelled from the spec: `room_alias_id::validate`, outside the shown
fragment — the delimited check with the alias sigil. -/
def validate (s : List Char) : Except Error Unit :=
  validate_delimited_id s '#'

end room_alias_id

namespace room_id_or_alias_id

/-- `room_id_or_alias_id::validate` (default feature set): dispatch on the
leading sigil to the alias or room-id validator; no recognized sigil is a
`MissingLeadingSigil` error. -/
def validate (s : List Char) : Except Error Unit :=
  match s.head? with
  | some '#' => room_alias_id.validate s
  | some '!' => room_id.validate s
  | _ => Except.error Error.MissingLeadingSigil

end room_id_or_alias_id

/-- Modelled from the spec: the non-delimited grammar check accepting one of
several sigils (protocol variants allow delimiter-free identifiers). -/
def validate_id_any (id : List Char) (sigils : List Char) : Except Error Unit :=
  if MAX_BYTES < id.length then Except.error Error.MaximumLengthExceeded
  else match id.head? with
    | some c =>
        if sigils.contains c then Except.ok ()
        else Except.error Error.MissingLeadingSigil
    | none => Except.error Error.MissingLeadingSigil

/-- Modelled from the spec: the delimited grammar check accepting one of
several sigils. -/
def validate_delimited_id_any (id : List Char) (sigils : List Char) :
    Except Error Unit :=
  match validate_id_any id sigils with
  | Except.error e => Except.error e
  | Except.ok _ =>
      if id.contains ':' then Except.ok ()
      else Except.error Error.MissingDelimiter

namespace room_id_or_alias_id

/-- `room_id_or_alias_id::validate` under the `unstable-msc3917` feature:
run both grammars, accept if either accepts, otherwise propagate the alias
error first. -/
def validate_msc3917 (s : List Char) : Except Error Unit :=
  let alias_result := validate_delimited_id_any s (['#'])
  let room_id_result := validate_id_any s (['!'])
  if room_id_result.is_ok || alias_result.is_ok then Except.ok ()
  else
    match alias_result with
    | Except.error e => Except.error e
    | Except.ok _ => room_id_result

end room_id_or_alias_id

/-- The non-delimited check accepts exactly the in-bound candidates with the
requested leading sigil. -/
theorem validate_id_ok_iff (s : List Char) (sigil : Char) :
    (validate_id s sigil).is_ok = true ↔
      s.length ≤ MAX_BYTES ∧ s.head? = some sigil := by
  unfold validate_id
  split
  next hlt =>
    constructor
    · intro h
      exact absurd h (by simp)
    · rintro ⟨hle, -⟩
      exact absurd hle (by omega)
  next hle =>
    split
    next hhead =>
      constructor
      · intro _
        exact ⟨by omega, hhead⟩
      · intro _
        rfl
    next hhead =>
      constructor
      · intro h
        exact absurd h (by simp)
      · rintro ⟨-, hh⟩
        exact absurd hh hhead

/-- A candidate without the requested leading sigil is rejected by the
non-delimited check. -/
theorem validate_id_not_ok (s : List Char) (sigil : Char)
    (h : s.head? ≠ some sigil) : (validate_id s sigil).is_ok = false := by
  unfold validate_id
  split <;> rfl

/-- The delimited check accepts exactly the in-bound, delimited candidates
with the requested leading sigil. -/
theorem validate_delimited_id_ok_iff (s : List Char) (sigil : Char) :
    (validate_delimited_id s sigil).is_ok = true ↔
      s.length ≤ MAX_BYTES ∧ s.head? = some sigil ∧ s.contains ':' = true := by
  unfold validate_delimited_id
  split
  next e heq =>
    constructor
    · intro h
      exact absurd h (by simp)
    · rintro ⟨h1, h2, -⟩
      have hok : (validate_id s sigil).is_ok = true :=
        (validate_id_ok_iff s sigil).mpr ⟨h1, h2⟩
      rw [heq] at hok
      exact absurd hok (by simp)
  next u heq =>
    have hok : (validate_id s sigil).is_ok = true := by rw [heq]; rfl
    obtain ⟨h1, h2⟩ := (validate_id_ok_iff s sigil).mp hok
    split
    next hc =>
      constructor
      · intro _
        exact ⟨h1, h2, hc⟩
      · intro _
        rfl
    next hc =>
      constructor
      · intro h
        exact absurd h (by simp)
      · rintro ⟨-, -, h3⟩
        exact absurd h3 hc

/-- A candidate without the requested leading sigil is rejected by the
delimited check. -/
theorem validate_delimited_id_not_ok (s : List Char) (sigil : Char)
    (h : s.head? ≠ some sigil) :
    (validate_delimited_id s sigil).is_ok = false := by
  unfold validate_delimited_id
  cases hv : validate_id s sigil with
  | error e => rfl
  | ok u =>
      have hok : (validate_id s sigil).is_ok = true := by rw [hv]; rfl
      exact absurd ((validate_id_ok_iff s sigil).mp hok).2 h

/-- Zeta-reduced shape of the `unstable-msc3917` union validator. -/
theorem validate_msc3917_eq (s : List Char) :
    room_id_or_alias_id.validate_msc3917 s =
      if (validate_id_any s (['!'])).is_ok
          || (validate_delimited_id_any s (['#'])).is_ok then Except.ok ()
      else
        match validate_delimited_id_any s (['#']) with
        | Except.error e => Except.error e
        | Except.ok _ => validate_id_any s (['!']) := rfl

/-- C8: room-id-or-alias validation (both feature variants) succeeds exactly
when room-id validation or room-alias validation succeeds, and on joint
failure with a leading alias sigil the alias-class error is the one
surfaced. -/
theorem room_id_or_alias_union (s : List Char) :
    ((room_id_or_alias_id.validate s).is_ok = true ↔
      (room_id.validate s).is_ok = true ∨
        (room_alias_id.validate s).is_ok = true) ∧
    ((room_id.validate s).is_ok = false →
      (room_alias_id.validate s).is_ok = false →
      s.head? = some '#' →
      room_id_or_alias_id.validate s = room_alias_id.validate s) ∧
    ((room_id_or_alias_id.validate_msc3917 s).is_ok = true ↔
      (validate_id_any s (['!'])).is_ok = true ∨
        (validate_delimited_id_any s (['#'])).is_ok = true) ∧
    ((validate_id_any s (['!'])).is_ok = false →
      (validate_delimited_id_any s (['#'])).is_ok = false →
      s.head? = some '#' →
      room_id_or_alias_id.validate_msc3917 s =
        validate_delimited_id_any s (['#'])) := by
  refine ⟨?_, ?_, ?_, ?_⟩
  · unfold room_id_or_alias_id.validate
    split
    next heq =>
      have hid : (room_id.validate s).is_ok = false :=
        validate_id_not_ok s _ (by rw [heq]; simp)
      simp [room_alias_id.validate, room_id.validate] at hid ⊢
      simp [hid]
    next heq =>
      have hal : (room_alias_id.validate s).is_ok = false :=
        validate_delimited_id_not_ok s _ (by rw [heq]; simp)
      simp [room_alias_id.validate, room_id.validate] at hal ⊢
      simp [hal]
    next hne1 hne2 =>
      have hid : (room_id.validate s).is_ok = false :=
        validate_id_not_ok s _ (fun hcon => hne2 hcon)
      have hal : (room_alias_id.validate s).is_ok = false :=
        validate_delimited_id_not_ok s _ (fun hcon => hne1 hcon)
      rw [hid, hal]
      simp
  · intro h1 h2 h3
    unfold room_id_or_alias_id.validate
    rw [h3]
    rfl
  · rw [validate_msc3917_eq]
    cases hr : validate_id_any s (['!']) <;>
      cases ha : validate_delimited_id_any s (['#']) <;>
        simp [Except.is_ok]
  · intro h1 h2 h3
    rw [validate_msc3917_eq]
    cases hr : validate_id_any s (['!']) <;>
      cases ha : validate_delimited_id_any s (['#']) <;>
        simp_all [Except.is_ok]

/-- C8 witness: both validators rejected the delimiter-free alias candidate,
and the surfaced error is the alias-class one, at a concrete input. -/
theorem room_id_or_alias_union_witness :
    room_id_or_alias_id.validate (['#', 'a']) =
      room_alias_id.validate (['#', 'a']) ∧
    room_id_or_alias_id.validate_msc3917 (['#', 'a']) =
      validate_delimited_id_any (['#', 'a']) (['#']) :=
  ⟨(room_id_or_alias_union (['#', 'a'])).2.1 (by decide) (by decide) (by decide),
   (room_id_or_alias_union (['#', 'a'])).2.2.2 (by decide) (by decide) (by decide)⟩

/-! ## JSON values and the polymorphic message decoder
(src/crates/ruma-common/src/events/room/message/content_serde.rs)

Raw JSON payloads are modelled as a JSON value tree; objects are
association lists of key-value pairs. -/

/-- A JSON value. -/
inductive Json where
  | null
  | bool (b : Bool)
  | num (n : Int)
  | str (s : String)
  | arr (elems : List Json)
  | obj (fields : List (String × Json))

/-- First value stored under a key of a JSON object, mirroring how serde
binds a struct field to an object key. -/
def lookupField (fields : List (String × Json)) (k : String) : Option Json :=
  match fields with
  | [] => none
  | (k2, v) :: rest => if k2 = k then some v else lookupField rest k

/-- `MessageTypeDeHelper`: helper struct declaring only the `msgtype` field,
used to determine the discriminator from a raw JSON value. -/
structure MessageTypeDeHelper where
  msgtype : String

/-- Derived deserialization of `MessageTypeDeHelper` (serde semantics): the
payload must be a JSON object whose `msgtype` key holds a string. -/
def MessageTypeDeHelper.deserialize (j : Json) :
    Except String MessageTypeDeHelper :=
  match j with
  | Json.obj fields =>
      match lookupField fields "msgtype" with
      | some (Json.str s) => Except.ok { msgtype := s }
      | some _ => Except.error "invalid type for field msgtype"
      | none => Except.error "missing field msgtype"
  | _ => Except.error "invalid type: expected a JSON object"

/-- Modelled from the spec: the custom fallback content (`_Custom` payload,
outside the shown fragment), carrying the literal discriminator string and
the remaining fields of the original object for lossless passthrough. -/
structure CustomEventContent where
  msgtype : String
  data : List (String × Json)

/-- Modelled from the spec: deserialization of the custom fallback — keep
the discriminator and every other field of the object verbatim. -/
def CustomEventContent.deserialize (j : Json) :
    Except String CustomEventContent :=
  match j with
  | Json.obj fields =>
      match lookupField fields "msgtype" with
      | some (Json.str s) =>
          Except.ok
            { msgtype := s
              data := fields.filter (fun p => p.1 ≠ "msgtype") }
      | some _ => Except.error "invalid type for field msgtype"
      | none => Except.error "missing field msgtype"
  | _ => Except.error "invalid type: expected a JSON object"

/-- `MessageType`: one variant per known discriminator plus the custom
fallback (named `_Custom` in the source).  The concrete content shapes of
the known variants are outside the shown fragment and are kept as type
parameters. -/
inductive MessageType (TAudio TEmote TFile TImage TLocation TNotice
    TServerNotice TText TVideo TVerificationRequest : Type) where
  | Audio (content : TAudio)
  | Emote (content : TEmote)
  | File (content : TFile)
  | Image (content : TImage)
  | Location (content : TLocation)
  | Notice (content : TNotice)
  | ServerNotice (content : TServerNotice)
  | Text (content : TText)
  | Video (content : TVideo)
  | VerificationRequest (content : TVerificationRequest)
  | Custom (content : CustomEventContent)

/-- The structural decoders of the known concrete shapes
(`from_raw_json_value` at each concrete type), external to the shown
fragment. -/
structure ShapeDecoders (TAudio TEmote TFile TImage TLocation TNotice
    TServerNotice TText TVideo TVerificationRequest : Type) where
  audio : Json → Except String TAudio
  emote : Json → Except String TEmote
  file : Json → Except String TFile
  image : Json → Except String TImage
  location : Json → Except String TLocation
  notice : Json → Except String TNotice
  server_notice : Json → Except String TServerNotice
  text : Json → Except String TText
  video : Json → Except String TVideo
  verification_request : Json → Except String TVerificationRequest

/-- The wire discriminators the decoder recognizes. -/
def knownMsgtypes : List String :=
  ["m.audio", "m.emote", "m.file", "m.image", "m.location", "m.notice",
   "m.server_notice", "m.text", "m.video", "m.key.verification.request"]

/-- `MessageType::deserialize`: extract the discriminator with the helper
shape, then re-drive decoding of the same raw value against the selected
concrete shape, or the custom fallback for an unknown discriminator. -/
def MessageType.deserialize
    {TAudio TEmote TFile TImage TLocation TNotice TServerNotice TText
      TVideo TVerificationRequest : Type}
    (d : ShapeDecoders TAudio TEmote TFile TImage TLocation TNotice
      TServerNotice TText TVideo TVerificationRequest)
    (j : Json) :
    Except String (MessageType TAudio TEmote TFile TImage TLocation TNotice
      TServerNotice TText TVideo TVerificationRequest) := do
  let helper ← MessageTypeDeHelper.deserialize j
  match helper.msgtype with
  | "m.audio" => (d.audio j).map MessageType.Audio
  | "m.emote" => (d.emote j).map MessageType.Emote
  | "m.file" => (d.file j).map MessageType.File
  | "m.image" => (d.image j).map MessageType.Image
  | "m.location" => (d.location j).map MessageType.Location
  | "m.notice" => (d.notice j).map MessageType.Notice
  | "m.server_notice" => (d.server_notice j).map MessageType.ServerNotice
  | "m.text" => (d.text j).map MessageType.Text
  | "m.video" => (d.video j).map MessageType.Video
  | "m.key.verification.request" =>
      (d.verification_request j).map MessageType.VerificationRequest
  | _ => (CustomEventContent.deserialize j).map MessageType.Custom

/-- Binding a successful `Except` computation applies the continuation. -/
theorem except_bind_ok_eq (a : α) (f : α → Except ε β) :
    (Except.ok a >>= f) = f a := rfl

/-- Binding a failed `Except` computation propagates the error. -/
theorem except_bind_error_eq (e : ε) (f : α → Except ε β) :
    ((Except.error e : Except ε α) >>= f) = Except.error e := rfl

/-- C6: deserializing a JSON object whose `msgtype` is a string matching no
known discriminator succeeds into the custom fallback variant, whatever the
concrete-shape decoders do; an unknown discriminator is never a decode
error. -/
theorem msgtype_unknown_decodes_to_custom
    {TAudio TEmote TFile TImage TLocation TNotice TServerNotice TText
      TVideo TVerificationRequest : Type}
    (d : ShapeDecoders TAudio TEmote TFile TImage TLocation TNotice
      TServerNotice TText TVideo TVerificationRequest)
    (fields : List (String × Json)) (s : String)
    (hfind : lookupField fields "msgtype" = some (Json.str s))
    (hunk : s ∉ knownMsgtypes) :
    MessageType.deserialize d (Json.obj fields) =
      Except.ok (MessageType.Custom
        { msgtype := s
          data := fields.filter (fun p => p.1 ≠ "msgtype") }) := by
  have hhelp : MessageTypeDeHelper.deserialize (Json.obj fields) =
      Except.ok { msgtype := s } := by
    simp only [MessageTypeDeHelper.deserialize, hfind]
  have hcust : CustomEventContent.deserialize (Json.obj fields) =
      Except.ok { msgtype := s
                  data := fields.filter (fun p => p.1 ≠ "msgtype") } := by
    simp only [CustomEventContent.deserialize, hfind]
  unfold MessageType.deserialize
  rw [hhelp, except_bind_ok_eq]
  dsimp only
  split <;> simp_all [knownMsgtypes, Except.map]

/-- C7: when the payload is not a JSON object, or its `msgtype` field is
missing or not a string, `MessageType` deserialization fails with the
decode error produced by the one-field helper shape, before and independent
of any variant-specific decoding. -/
theorem msgtype_discriminator_errors
    {TAudio TEmote TFile TImage TLocation TNotice TServerNotice TText
      TVideo TVerificationRequest : Type}
    (d : ShapeDecoders TAudio TEmote TFile TImage TLocation TNotice
      TServerNotice TText TVideo TVerificationRequest) :
    (∀ fields, lookupField fields "msgtype" = none →
      MessageType.deserialize d (Json.obj fields) =
        Except.error "missing field msgtype" ∧
      MessageTypeDeHelper.deserialize (Json.obj fields) =
        Except.error "missing field msgtype") ∧
    (∀ fields v, lookupField fields "msgtype" = some v →
      (∀ s, v ≠ Json.str s) →
      MessageType.deserialize d (Json.obj fields) =
        Except.error "invalid type for field msgtype" ∧
      MessageTypeDeHelper.deserialize (Json.obj fields) =
        Except.error "invalid type for field msgtype") ∧
    (∀ j, (∀ fields, j ≠ Json.obj fields) →
      MessageType.deserialize d j =
        Except.error "invalid type: expected a JSON object" ∧
      MessageTypeDeHelper.deserialize j =
        Except.error "invalid type: expected a JSON object") := by
  refine ⟨?_, ?_, ?_⟩
  · intro fields h
    have hhelp : MessageTypeDeHelper.deserialize (Json.obj fields) =
        Except.error "missing field msgtype" := by
      simp only [MessageTypeDeHelper.deserialize, h]
    refine ⟨?_, hhelp⟩
    unfold MessageType.deserialize
    rw [hhelp, except_bind_error_eq]
  · intro fields v hv hstr
    have hhelp : MessageTypeDeHelper.deserialize (Json.obj fields) =
        Except.error "invalid type for field msgtype" := by
      simp only [MessageTypeDeHelper.deserialize, hv]
    refine ⟨?_, hhelp⟩
    unfold MessageType.deserialize
    rw [hhelp, except_bind_error_eq]
  · intro j hobj
    have hhelp : MessageTypeDeHelper.deserialize j =
        Except.error "invalid type: expected a JSON object" := by
      unfold MessageTypeDeHelper.deserialize
      cases j <;> first | rfl | exact absurd rfl (hobj _)
    refine ⟨?_, hhelp⟩
    unfold MessageType.deserialize
    rw [hhelp, except_bind_error_eq]

/-- Trivial concrete shape decoders (over `Unit` payloads), used to evaluate
the decoder on concrete inputs. -/
def unitShapeDecoders :
    ShapeDecoders Unit Unit Unit Unit Unit Unit Unit Unit Unit Unit :=
  { audio := fun _ => Except.error "unused"
    emote := fun _ => Except.error "unused"
    file := fun _ => Except.error "unused"
    image := fun _ => Except.error "unused"
    location := fun _ => Except.error "unused"
    notice := fun _ => Except.error "unused"
    server_notice := fun _ => Except.error "unused"
    text := fun _ => Except.error "unused"
    video := fun _ => Except.error "unused"
    verification_request := fun _ => Except.error "unused" }

/-- C6 witness: an unrecognized discriminator decodes into the custom
fallback at a concrete payload, preserving the other fields. -/
theorem msgtype_unknown_decodes_to_custom_witness :
    MessageType.deserialize unitShapeDecoders
        (Json.obj [("msgtype", Json.str "m.sticker_custom"),
                   ("body", Json.str "x")]) =
      Except.ok (MessageType.Custom
        { msgtype := "m.sticker_custom"
          data := [("body", Json.str "x")] }) :=
  msgtype_unknown_decodes_to_custom unitShapeDecoders
    [("msgtype", Json.str "m.sticker_custom"), ("body", Json.str "x")]
    "m.sticker_custom" rfl (by decide)

/-- C7 witness: the three discriminator failure shapes evaluated at concrete
payloads. -/
theorem msgtype_discriminator_errors_witness :
    MessageType.deserialize unitShapeDecoders
        (Json.obj [("body", Json.str "x")]) =
      Except.error "missing field msgtype" ∧
    MessageType.deserialize unitShapeDecoders
        (Json.obj [("msgtype", Json.num 3)]) =
      Except.error "invalid type for field msgtype" ∧
    MessageType.deserialize unitShapeDecoders (Json.str "hi") =
      Except.error "invalid type: expected a JSON object" :=
  ⟨((msgtype_discriminator_errors unitShapeDecoders).1
      [("body", Json.str "x")] rfl).1,
   ((msgtype_discriminator_errors unitShapeDecoders).2.1
      [("msgtype", Json.num 3)] (Json.num 3) rfl
      (fun _ h => Json.noConfusion h)).1,
   ((msgtype_discriminator_errors unitShapeDecoders).2.2
      (Json.str "hi") (fun _ h => Json.noConfusion h)).1⟩

/-- `RoomMessageEventContent`: the message type plus the optional relation
(`m.relates_to`). The relation payload type is external and kept as a type
parameter. -/
structure RoomMessageEventContent (TAudio TEmote TFile TImage TLocation
    TNotice TServerNotice TText TVideo TVerificationRequest
    TRelation : Type) where
  msgtype : MessageType TAudio TEmote TFile TImage TLocation TNotice
    TServerNotice TText TVideo TVerificationRequest
  relates_to : Option TRelation

/-- Modelled from the spec: deserialization of `Option<Relation>` from the
full content object — an absent `m.relates_to` key is absence, a present key
is decoded by the external relation decoder `dRel`, whose failure
propagates. -/
def deserializeRelatesTo {TRelation : Type}
    (dRel : Json → Except String TRelation) (j : Json) :
    Except String (Option TRelation) :=
  match j with
  | Json.obj fields =>
      match lookupField fields "m.relates_to" with
      | none => Except.ok none
      | some v => (dRel v).map some
  | _ => Except.error "invalid type: expected a JSON object"

/-- `RoomMessageEventContent::deserialize`: decode the optional relation
from the raw value (propagating its error with `?`), then the message type
from the same raw value. -/
def RoomMessageEventContent.deserialize
    {TAudio TEmote TFile TImage TLocation TNotice TServerNotice TText
      TVideo TVerificationRequest TRelation : Type}
    (d : ShapeDecoders TAudio TEmote TFile TImage TLocation TNotice
      TServerNotice TText TVideo TVerificationRequest)
    (dRel : Json → Except String TRelation) (j : Json) :
    Except String (RoomMessageEventContent TAudio TEmote TFile TImage
      TLocation TNotice TServerNotice TText TVideo TVerificationRequest
      TRelation) := do
  let relates_to ← deserializeRelatesTo dRel j
  let msgtype ← MessageType.deserialize d j
  Except.ok { msgtype := msgtype, relates_to := relates_to }

/-- C10: a present but malformed `m.relates_to` makes the whole content
deserialization fail with the relation decode error (never silently
dropped), while an absent `m.relates_to` is plain absence. -/
theorem malformed_relation_is_error
    {TAudio TEmote TFile TImage TLocation TNotice TServerNotice TText
      TVideo TVerificationRequest TRelation : Type}
    (d : ShapeDecoders TAudio TEmote TFile TImage TLocation TNotice
      TServerNotice TText TVideo TVerificationRequest)
    (dRel : Json → Except String TRelation) :
    (∀ fields v e, lookupField fields "m.relates_to" = some v →
      dRel v = Except.error e →
      RoomMessageEventContent.deserialize d dRel (Json.obj fields) =
        Except.error e) ∧
    (∀ fields, lookupField fields "m.relates_to" = none →
      RoomMessageEventContent.deserialize d dRel (Json.obj fields) =
        (MessageType.deserialize d (Json.obj fields)).map
          (fun m => { msgtype := m, relates_to := none })) := by
  constructor
  · intro fields v e hfind herr
    have hrel : deserializeRelatesTo dRel (Json.obj fields) =
        Except.error e := by
      simp only [deserializeRelatesTo, hfind, herr, Except.map]
    unfold RoomMessageEventContent.deserialize
    rw [hrel, except_bind_error_eq]
  · intro fields hnone
    have hrel : deserializeRelatesTo dRel (Json.obj fields) =
        Except.ok none := by
      simp only [deserializeRelatesTo, hnone]
    unfold RoomMessageEventContent.deserialize
    rw [hrel, except_bind_ok_eq]
    cases hm : MessageType.deserialize d (Json.obj fields) <;>
      simp [hm, Except.map, except_bind_error_eq, except_bind_ok_eq]

/-- C10 witness: a malformed relation value fails the whole decode at a
concrete payload, with a trivial relation decoder. -/
theorem malformed_relation_is_error_witness :
    RoomMessageEventContent.deserialize unitShapeDecoders
        (fun _ => (Except.error "malformed relation" : Except String Unit))
        (Json.obj [("msgtype", Json.str "m.text"),
                   ("m.relates_to", Json.num 0)]) =
      Except.error "malformed relation" :=
  (malformed_relation_is_error unitShapeDecoders
      (fun _ => Except.error "malformed relation")).1
    [("msgtype", Json.str "m.text"), ("m.relates_to", Json.num 0)]
    (Json.num 0) "malformed relation" rfl rfl

/-! ## Stable/unstable field-alias resolution for file and image messages
(src/crates/ruma-common/src/events/room/message/content_serde.rs,
`unstable-msc3551` / `unstable-msc3552`)

The payload types of the aliased attributes (`MediaSource`, `FileInfo`,
`ImageInfo`, `MessageContent`, `FileContent`, `ImageContent`,
`ThumbnailContent`) are outside the shown fragment and are kept as type
parameters.  A helper field is `some` exactly when the corresponding wire
key was present and decoded, per the derived serde deserialization. -/

/-- `FileMessageEventContentDeHelper`: intermediate record with one slot per
wire key, including both names of the aliased extensible-event file
attribute (`m.file` and `org.matrix.msc1767.file`). -/
structure FileMessageEventContentDeHelper (TMediaSource TFileInfo
    TMessageContent TFileContent : Type) where
  body : String
  filename : Option String
  source : TMediaSource
  info : Option TFileInfo
  message : Option TMessageContent
  file_stable : Option TFileContent
  file_unstable : Option TFileContent

/-- `FileMessageEventContent`: canonical record with one `file` attribute. -/
structure FileMessageEventContent (TMediaSource TFileInfo TMessageContent
    TFileContent : Type) where
  body : String
  filename : Option String
  source : TMediaSource
  info : Option TFileInfo
  message : Option TMessageContent
  file : Option TFileContent

/-- `From<FileMessageEventContentDeHelper> for FileMessageEventContent`:
`file = file_stable.or(file_unstable)`; the match spells out `Option::or`. -/
def FileMessageEventContent.ofDeHelper
    {TMediaSource TFileInfo TMessageContent TFileContent : Type}
    (helper : FileMessageEventContentDeHelper TMediaSource TFileInfo
      TMessageContent TFileContent) :
    FileMessageEventContent TMediaSource TFileInfo TMessageContent
      TFileContent :=
  let file :=
    match helper.file_stable with
    | some v => some v
    | none => helper.file_unstable
  { body := helper.body
    filename := helper.filename
    source := helper.source
    info := helper.info
    message := helper.message
    file := file }

/-- `ImageMessageEventContentDeHelper`: intermediate record with both names
of each aliased attribute (file, image, thumbnail, caption). -/
structure ImageMessageEventContentDeHelper (TMediaSource TImageInfo
    TMessageContent TFileContent TImageContent TThumbnailContent : Type) where
  body : String
  source : TMediaSource
  info : Option TImageInfo
  message : Option TMessageContent
  file_stable : Option TFileContent
  file_unstable : Option TFileContent
  image_stable : Option TImageContent
  image_unstable : Option TImageContent
  thumbnail_stable : Option (List TThumbnailContent)
  thumbnail_unstable : Option (List TThumbnailContent)
  caption_stable : Option TMessageContent
  caption_unstable : Option TMessageContent

/-- `ImageMessageEventContent`: canonical record with one attribute per
aliased pair. -/
structure ImageMessageEventContent (TMediaSource TImageInfo TMessageContent
    TFileContent TImageContent TThumbnailContent : Type) where
  body : String
  source : TMediaSource
  info : Option TImageInfo
  message : Option TMessageContent
  file : Option TFileContent
  image : Option TImageContent
  thumbnail : Option (List TThumbnailContent)
  caption : Option TMessageContent

/-- `From<ImageMessageEventContentDeHelper> for ImageMessageEventContent`:
each aliased attribute resolves with `Option::or` (stable over unstable). -/
def ImageMessageEventContent.ofDeHelper
    {TMediaSource TImageInfo TMessageContent TFileContent TImageContent
      TThumbnailContent : Type}
    (helper : ImageMessageEventContentDeHelper TMediaSource TImageInfo
      TMessageContent TFileContent TImageContent TThumbnailContent) :
    ImageMessageEventContent TMediaSource TImageInfo TMessageContent
      TFileContent TImageContent TThumbnailContent :=
  let file :=
    match helper.file_stable with
    | some v => some v
    | none => helper.file_unstable
  let image :=
    match helper.image_stable with
    | some v => some v
    | none => helper.image_unstable
  let thumbnail :=
    match helper.thumbnail_stable with
    | some v => some v
    | none => helper.thumbnail_unstable
  let caption :=
    match helper.caption_stable with
    | some v => some v
    | none => helper.caption_unstable
  { body := helper.body
    source := helper.source
    info := helper.info
    message := helper.message
    file := file
    image := image
    thumbnail := thumbnail
    caption := caption }

/-- C5: for every aliased attribute of the file and image message content
shapes (file; and file, image, thumbnail, caption), the stable slot wins
when both are present, the unstable slot is adopted when it is the only one
present, and the attribute is absent when neither is present. -/
theorem alias_stable_over_unstable
    {TMediaSource TFileInfo TImageInfo TMessageContent TFileContent
      TImageContent TThumbnailContent : Type} :
    (∀ (h : FileMessageEventContentDeHelper TMediaSource TFileInfo
        TMessageContent TFileContent) a b,
      h.file_stable = some a → h.file_unstable = some b →
      (FileMessageEventContent.ofDeHelper h).file = some a) ∧
    (∀ (h : FileMessageEventContentDeHelper TMediaSource TFileInfo
        TMessageContent TFileContent) b,
      h.file_stable = none → h.file_unstable = some b →
      (FileMessageEventContent.ofDeHelper h).file = some b) ∧
    (∀ (h : FileMessageEventContentDeHelper TMediaSource TFileInfo
        TMessageContent TFileContent),
      h.file_stable = none → h.file_unstable = none →
      (FileMessageEventContent.ofDeHelper h).file = none) ∧
    (∀ (h : ImageMessageEventContentDeHelper TMediaSource TImageInfo
        TMessageContent TFileContent TImageContent TThumbnailContent) a b,
      h.file_stable = some a → h.file_unstable = some b →
      (ImageMessageEventContent.ofDeHelper h).file = some a) ∧
    (∀ (h : ImageMessageEventContentDeHelper TMediaSource TImageInfo
        TMessageContent TFileContent TImageContent TThumbnailContent) b,
      h.file_stable = none → h.file_unstable = some b →
      (ImageMessageEventContent.ofDeHelper h).file = some b) ∧
    (∀ (h : ImageMessageEventContentDeHelper TMediaSource TImageInfo
        TMessageContent TFileContent TImageContent TThumbnailContent),
      h.file_stable = none → h.file_unstable = none →
      (ImageMessageEventContent.ofDeHelper h).file = none) ∧
    (∀ (h : ImageMessageEventContentDeHelper TMediaSource TImageInfo
        TMessageContent TFileContent TImageContent TThumbnailContent) a b,
      h.image_stable = some a → h.image_unstable = some b →
      (ImageMessageEventContent.ofDeHelper h).image = some a) ∧
    (∀ (h : ImageMessageEventContentDeHelper TMediaSource TImageInfo
        TMessageContent TFileContent TImageContent TThumbnailContent) b,
      h.image_stable = none → h.image_unstable = some b →
      (ImageMessageEventContent.ofDeHelper h).image = some b) ∧
    (∀ (h : ImageMessageEventContentDeHelper TMediaSource TImageInfo
        TMessageContent TFileContent TImageContent TThumbnailContent),
      h.image_stable = none → h.image_unstable = none →
      (ImageMessageEventContent.ofDeHelper h).image = none) ∧
    (∀ (h : ImageMessageEventContentDeHelper TMediaSource TImageInfo
        TMessageContent TFileContent TImageContent TThumbnailContent) a b,
      h.thumbnail_stable = some a → h.thumbnail_unstable = some b →
      (ImageMessageEventContent.ofDeHelper h).thumbnail = some a) ∧
    (∀ (h : ImageMessageEventContentDeHelper TMediaSource TImageInfo
        TMessageContent TFileContent TImageContent TThumbnailContent) b,
      h.thumbnail_stable = none → h.thumbnail_unstable = some b →
      (ImageMessageEventContent.ofDeHelper h).thumbnail = some b) ∧
    (∀ (h : ImageMessageEventContentDeHelper TMediaSource TImageInfo
        TMessageContent TFileContent TImageContent TThumbnailContent),
      h.thumbnail_stable = none → h.thumbnail_unstable = none →
      (ImageMessageEventContent.ofDeHelper h).thumbnail = none) ∧
    (∀ (h : ImageMessageEventContentDeHelper TMediaSource TImageInfo
        TMessageContent TFileContent TImageContent TThumbnailContent) a b,
      h.caption_stable = some a → h.caption_unstable = some b →
      (ImageMessageEventContent.ofDeHelper h).caption = some a) ∧
    (∀ (h : ImageMessageEventContentDeHelper TMediaSource TImageInfo
        TMessageContent TFileContent TImageContent TThumbnailContent) b,
      h.caption_stable = none → h.caption_unstable = some b →
      (ImageMessageEventContent.ofDeHelper h).caption = some b) ∧
    (∀ (h : ImageMessageEventContentDeHelper TMediaSource TImageInfo
        TMessageContent TFileContent TImageContent TThumbnailContent),
      h.caption_stable = none → h.caption_unstable = none →
      (ImageMessageEventContent.ofDeHelper h).caption = none) := by
  refine ⟨?_, ?_, ?_, ?_, ?_, ?_, ?_, ?_, ?_, ?_, ?_, ?_, ?_, ?_, ?_⟩ <;>
    intros <;>
      simp_all [FileMessageEventContent.ofDeHelper,
        ImageMessageEventContent.ofDeHelper]

/-- A concrete file helper with both alias slots filled. -/
def fileHelperBoth : FileMessageEventContentDeHelper Nat Nat Nat Nat :=
  { body := "file", filename := none, source := 0, info := none,
    message := none, file_stable := some 1, file_unstable := some 2 }

/-- A concrete file helper with only the unstable slot filled. -/
def fileHelperUnstable : FileMessageEventContentDeHelper Nat Nat Nat Nat :=
  { body := "file", filename := none, source := 0, info := none,
    message := none, file_stable := none, file_unstable := some 2 }

/-- A concrete file helper with neither alias slot filled. -/
def fileHelperNeither : FileMessageEventContentDeHelper Nat Nat Nat Nat :=
  { body := "file", filename := none, source := 0, info := none,
    message := none, file_stable := none, file_unstable := none }

/-- A concrete image helper with both slots of every aliased attribute. -/
def imageHelperBoth :
    ImageMessageEventContentDeHelper Nat Nat Nat Nat Nat Nat :=
  { body := "image", source := 0, info := none, message := none,
    file_stable := some 1, file_unstable := some 2,
    image_stable := some 3, image_unstable := some 4,
    thumbnail_stable := some [5], thumbnail_unstable := some [6],
    caption_stable := some 7, caption_unstable := some 8 }

/-- A concrete image helper with only unstable slots. -/
def imageHelperUnstable :
    ImageMessageEventContentDeHelper Nat Nat Nat Nat Nat Nat :=
  { body := "image", source := 0, info := none, message := none,
    file_stable := none, file_unstable := some 2,
    image_stable := none, image_unstable := some 4,
    thumbnail_stable := none, thumbnail_unstable := some [6],
    caption_stable := none, caption_unstable := some 8 }

/-- A concrete image helper with no alias slot filled. -/
def imageHelperNeither :
    ImageMessageEventContentDeHelper Nat Nat Nat Nat Nat Nat :=
  { body := "image", source := 0, info := none, message := none,
    file_stable := none, file_unstable := none,
    image_stable := none, image_unstable := none,
    thumbnail_stable := none, thumbnail_unstable := none,
    caption_stable := none, caption_unstable := none }

/-- C5 witness: every aliased attribute evaluated in all three presence
cases at concrete helpers. -/
theorem alias_stable_over_unstable_witness :
    (FileMessageEventContent.ofDeHelper fileHelperBoth).file = some 1 ∧
    (FileMessageEventContent.ofDeHelper fileHelperUnstable).file = some 2 ∧
    (FileMessageEventContent.ofDeHelper fileHelperNeither).file = none ∧
    (ImageMessageEventContent.ofDeHelper imageHelperBoth).file = some 1 ∧
    (ImageMessageEventContent.ofDeHelper imageHelperUnstable).file = some 2 ∧
    (ImageMessageEventContent.ofDeHelper imageHelperNeither).file = none ∧
    (ImageMessageEventContent.ofDeHelper imageHelperBoth).image = some 3 ∧
    (ImageMessageEventContent.ofDeHelper imageHelperUnstable).image = some 4 ∧
    (ImageMessageEventContent.ofDeHelper imageHelperNeither).image = none ∧
    (ImageMessageEventContent.ofDeHelper imageHelperBoth).thumbnail
      = some [5] ∧
    (ImageMessageEventContent.ofDeHelper imageHelperUnstable).thumbnail
      = some [6] ∧
    (ImageMessageEventContent.ofDeHelper imageHelperNeither).thumbnail
      = none ∧
    (ImageMessageEventContent.ofDeHelper imageHelperBoth).caption = some 7 ∧
    (ImageMessageEventContent.ofDeHelper imageHelperUnstable).caption
      = some 8 ∧
    (ImageMessageEventContent.ofDeHelper imageHelperNeither).caption
      = none := by
  obtain ⟨p1, p2, p3, p4, p5, p6, p7, p8, p9, p10, p11, p12, p13, p14, p15⟩ :=
    @alias_stable_over_unstable Nat Nat Nat Nat Nat Nat Nat
  exact ⟨p1 fileHelperBoth 1 2 rfl rfl,
    p2 fileHelperUnstable 2 rfl rfl,
    p3 fileHelperNeither rfl rfl,
    p4 imageHelperBoth 1 2 rfl rfl,
    p5 imageHelperUnstable 2 rfl rfl,
    p6 imageHelperNeither rfl rfl,
    p7 imageHelperBoth 3 4 rfl rfl,
    p8 imageHelperUnstable 4 rfl rfl,
    p9 imageHelperNeither rfl rfl,
    p10 imageHelperBoth [5] [6] rfl rfl,
    p11 imageHelperUnstable [6] rfl rfl,
    p12 imageHelperNeither rfl rfl,
    p13 imageHelperBoth 7 8 rfl rfl,
    p14 imageHelperUnstable 8 rfl rfl,
    p15 imageHelperNeither rfl rfl⟩
